import Mathlib

/-!
Verification development for the order-lifecycle tracker example
(`examples/13_order_lifecycle_tracker_with_stream.py`).

The example keeps four module-level globals (`tracked_order_id`,
`tracked_order_status_from_stream`, `tracked_order_details_from_stream`,
`is_order_terminal`), mutates them from the stream callback
`handle_tracked_order_update`, and runs a monitor → cancel → confirm
workflow in `run_order_lifecycle_example`.  We embed the globals as a
record, the callback as a pure state-transition function, and the
workflow as a function over per-sleep batches of delivered events
(one batch per `time.sleep` in a loop iteration), so that every
interleaving of stream delivery with the main thread's polling checks
is a concrete input.
-/

namespace OrderLifecycle

/-- Modelled from the spec: the numeric order-status codes
(`ORDER_STATUS_WORKING`, `ORDER_STATUS_FILLED`, `ORDER_STATUS_CANCELLED`,
`ORDER_STATUS_REJECTED`) are imported by the example from the `tsxapipy`
package, which is not part of the sources under verification.  The spec
only requires them to be distinct enumeration values, with Filled,
Cancelled and Rejected terminal and Working active; the concrete numbers
below follow the gateway's order-status enumeration. -/
def ORDER_STATUS_WORKING : Int := 1

/-- Modelled from the spec: see `ORDER_STATUS_WORKING`. -/
def ORDER_STATUS_FILLED : Int := 2

/-- Modelled from the spec: see `ORDER_STATUS_WORKING`. -/
def ORDER_STATUS_CANCELLED : Int := 3

/-- Modelled from the spec: see `ORDER_STATUS_WORKING`. -/
def ORDER_STATUS_REJECTED : Int := 5

/-- An order event delivered by the user-hub stream, as consumed by
`handle_tracked_order_update`: a dictionary read with `.get`, so every
field is optional.  `id` and `status` are the fields the handler branches
on; the remaining fields are only stored/logged and stand for the rest of
the payload. -/
structure OrderData where
  id : Option Int
  status : Option Int
  cumQuantity : Option Int
  leavesQuantity : Option Int
  avgPx : Option Int
  extra : List (String × String)
  deriving DecidableEq, Repr

/-- The example's module-level mutable state: `tracked_order_id`,
`tracked_order_status_from_stream`, `tracked_order_details_from_stream`
and `is_order_terminal` (lines 38-41 of the source). -/
structure TrackerState where
  tracked_order_id : Option Int
  tracked_order_status_from_stream : Option Int
  tracked_order_details_from_stream : Option OrderData
  is_order_terminal : Bool
  deriving DecidableEq, Repr

/-- `handle_tracked_order_update(order_data)` (source lines 43-67): if the
event's `id` equals `tracked_order_id`, store the event's status and the
full payload, and set `is_order_terminal` when the status code is one of
Filled/Cancelled/Rejected; otherwise do nothing.  Python's `None == None`
is `True`, which the `Option Int` equality mirrors. -/
def handle_tracked_order_update (s : TrackerState) (order_data : OrderData) : TrackerState :=
  if order_data.id = s.tracked_order_id then
    let status_code := order_data.status
    let s1 : TrackerState :=
      { s with
        tracked_order_status_from_stream := status_code
        tracked_order_details_from_stream := some order_data }
    if status_code ∈ [some ORDER_STATUS_FILLED, some ORDER_STATUS_CANCELLED,
        some ORDER_STATUS_REJECTED] then
      { s1 with is_order_terminal := true }
    else
      s1
  else
    s

/-- Apply a batch of stream events in delivery order (the callback runs
once per delivered event on the stream's thread). -/
def applyEvents (s : TrackerState) (events : List OrderData) : TrackerState :=
  events.foldl handle_tracked_order_update s

/-- The monitoring loop (source lines 146-153):
`while elapsed < monitoring_duration_before_cancel: if is_order_terminal:
break; sleep(1)`.  Each element of `ticks` is the batch of events the
stream delivers during one `sleep(1)`; the terminal check happens at the
top of each iteration, before that iteration's sleep. -/
def monitorLoop : TrackerState → List (List OrderData) → TrackerState
  | s, [] => s
  | s, es :: rest =>
    if s.is_order_terminal then s
    else monitorLoop (applyEvents s es) rest

/-- Outcome of the cancel-confirmation wait (the three exit log branches
of the loop at source lines 161-174). -/
inductive ConfirmOutcome where
  | confirmedCancelled : ConfirmOutcome
  | terminalOther : Option Int → ConfirmOutcome
  | timedOut : Option Int → ConfirmOutcome
  deriving DecidableEq, Repr

/-- The cancel-confirmation loop (source lines 161-174):
`while elapsed < cancel_attempt_timeout:` check
`is_order_terminal and status == CANCELLED` (confirmed), `elif
is_order_terminal` (filled/rejected instead), else `sleep(0.5)`;
the `while`'s `else` clause reports the timeout with the last known
stream status.  Each element of `ticks` is the batch of events delivered
during one `sleep(0.5)`. -/
def confirmLoop : TrackerState → List (List OrderData) → TrackerState × ConfirmOutcome
  | s, [] => (s, ConfirmOutcome.timedOut s.tracked_order_status_from_stream)
  | s, es :: rest =>
    if s.is_order_terminal then
      if s.tracked_order_status_from_stream = some ORDER_STATUS_CANCELLED then
        (s, ConfirmOutcome.confirmedCancelled)
      else
        (s, ConfirmOutcome.terminalOther s.tracked_order_status_from_stream)
    else
      confirmLoop (applyEvents s es) rest

/-- The distinct reported outcomes of the session workflow: the log
branches of `run_order_lifecycle_example` after the order is placed
(source lines 146-179). -/
inductive SessionReport where
  | terminalBeforeCancel : Option Int → SessionReport
  | cancelConfirmed : SessionReport
  | terminalDuringCancelWait : Option Int → SessionReport
  | cancelConfirmTimedOut : Option Int → SessionReport
  | cancelFailedButTerminal : Option Int → SessionReport
  | cancelFailed : SessionReport
  deriving DecidableEq, Repr

/-- Map a confirmation-loop outcome to the session-level report. -/
def liftConfirm : ConfirmOutcome → SessionReport
  | ConfirmOutcome.confirmedCancelled => SessionReport.cancelConfirmed
  | ConfirmOutcome.terminalOther c => SessionReport.terminalDuringCancelWait c
  | ConfirmOutcome.timedOut c => SessionReport.cancelConfirmTimedOut c

/-- The nondeterministic environment of one session run: the events the
stream delivers during each monitor-loop sleep, the events delivered
while the synchronous `cancel_order` call is in flight, the transport
result of that call, and the events delivered during each
confirmation-loop sleep. -/
structure SessionInput where
  monitorTicks : List (List OrderData)
  cancelCallEvents : List OrderData
  cancelSuccess : Bool
  confirmTicks : List (List OrderData)

/-- What a session run leaves behind: the final tracker state, the
reported outcome, and whether a cancel request was issued. -/
structure SessionResult where
  finalState : TrackerState
  report : SessionReport
  cancelIssued : Bool
  deriving DecidableEq, Repr

/-- The post-placement workflow of `run_order_lifecycle_example`
(source lines 146-179), starting from the state `s0` just after
`tracked_order_id` is set: run the monitor loop; if the order is terminal,
skip the cancel (line 155); otherwise issue `cancel_order` — events
arriving during that synchronous call are `cancelCallEvents` — and on
success run the confirmation loop, while on failure check
`is_order_terminal` to report an already-terminal order (lines 175-179). -/
def run_order_lifecycle_example (s0 : TrackerState) (inp : SessionInput) : SessionResult :=
  let s1 := monitorLoop s0 inp.monitorTicks
  if s1.is_order_terminal then
    { finalState := s1
      report := SessionReport.terminalBeforeCancel s1.tracked_order_status_from_stream
      cancelIssued := false }
  else
    let s2 := applyEvents s1 inp.cancelCallEvents
    if inp.cancelSuccess then
      let r := confirmLoop s2 inp.confirmTicks
      { finalState := r.1, report := liftConfirm r.2, cancelIssued := true }
    else if s2.is_order_terminal then
      { finalState := s2
        report := SessionReport.cancelFailedButTerminal s2.tracked_order_status_from_stream
        cancelIssued := true }
    else
      { finalState := s2, report := SessionReport.cancelFailed, cancelIssued := true }

/-- State directly after the order is placed and `tracked_order_id` is
set to 7: no stream update seen yet. -/
def sInit : TrackerState :=
  { tracked_order_id := some 7
    tracked_order_status_from_stream := none
    tracked_order_details_from_stream := none
    is_order_terminal := false }

/-- A Working-status event for the tracked order. -/
def eWork : OrderData :=
  { id := some 7, status := some ORDER_STATUS_WORKING, cumQuantity := some 0
    leavesQuantity := some 1, avgPx := none, extra := [] }

/-- A Filled-status event for the tracked order. -/
def eFill : OrderData :=
  { id := some 7, status := some ORDER_STATUS_FILLED, cumQuantity := some 1
    leavesQuantity := some 0, avgPx := some 17980, extra := [] }

/-- A Cancelled-status event for the tracked order. -/
def eCancel : OrderData :=
  { id := some 7, status := some ORDER_STATUS_CANCELLED, cumQuantity := some 0
    leavesQuantity := some 0, avgPx := none, extra := [] }

/-- An event whose status code is outside the known enumeration. -/
def eUnknown : OrderData :=
  { id := some 7, status := some 99, cumQuantity := none
    leavesQuantity := none, avgPx := none, extra := [] }

/-- An event for a different, untracked order id. -/
def eOther : OrderData :=
  { id := some 8, status := some ORDER_STATUS_FILLED, cumQuantity := some 2
    leavesQuantity := some 0, avgPx := none, extra := [] }

/-- Tracker state after the order has been observed Filled (terminal). -/
def sTerm : TrackerState :=
  { tracked_order_id := some 7
    tracked_order_status_from_stream := some ORDER_STATUS_FILLED
    tracked_order_details_from_stream := some eFill
    is_order_terminal := true }

/-- The tracker states observed at the top-of-loop terminal check of each
confirmation-loop iteration, assuming no early exit: one entry per tick. -/
def checkStates : TrackerState → List (List OrderData) → List TrackerState
  | _, [] => []
  | s, es :: rest => s :: checkStates (applyEvents s es) rest

/-- The tracker state after all the events of a list of ticks have been
delivered, ignoring the polling checks. -/
def foldTicks (s : TrackerState) (ticks : List (List OrderData)) : TrackerState :=
  ticks.foldl applyEvents s

/-- A session environment in which the order stays untouched for the
whole 20-tick monitor window, the cancel request succeeds, and the fill
event arrives during the last of the 30 half-second confirmation sleeps —
inside the confirmation window but after the final poll. -/
def lateFillInput : SessionInput :=
  { monitorTicks := List.replicate 20 []
    cancelCallEvents := []
    cancelSuccess := true
    confirmTicks := List.replicate 29 [] ++ [[eFill]] }

/-- The handler never changes which order is tracked: `tracked_order_id`
is only read, never written, inside `handle_tracked_order_update`. -/
lemma handle_preserves_id (s : TrackerState) (e : OrderData) :
    (handle_tracked_order_update s e).tracked_order_id = s.tracked_order_id := by
  unfold handle_tracked_order_update
  split_ifs <;> simp [apply_ite]

/-- The handler never clears the terminal flag. -/
lemma handle_flag_mono (s : TrackerState) (e : OrderData)
    (h : s.is_order_terminal = true) :
    (handle_tracked_order_update s e).is_order_terminal = true := by
  unfold handle_tracked_order_update
  split_ifs <;> simp_all

/-- On a matching event, the handler result written out in full. -/
lemma handle_match (s : TrackerState) (e : OrderData)
    (hid : e.id = s.tracked_order_id) :
    handle_tracked_order_update s e =
      { s with
        tracked_order_status_from_stream := e.status
        tracked_order_details_from_stream := some e
        is_order_terminal :=
          if e.status ∈ [some ORDER_STATUS_FILLED, some ORDER_STATUS_CANCELLED,
              some ORDER_STATUS_REJECTED] then true else s.is_order_terminal } := by
  unfold handle_tracked_order_update
  rw [if_pos hid]
  split_ifs with hm <;> simp [hm]

/-- Claim C1, counterexample: with the tracked order already terminal
(Filled), a later Working-status event for the same order id is not
discarded — the stored status and the details snapshot both change, so
`Apply` does not leave the snapshot unchanged (and the handler has no
anomaly result at all: it returns nothing). -/
theorem C1_counterexample :
    ¬ ((handle_tracked_order_update sTerm eWork).tracked_order_status_from_stream
          = sTerm.tracked_order_status_from_stream ∧
       (handle_tracked_order_update sTerm eWork).tracked_order_details_from_stream
          = sTerm.tracked_order_details_from_stream) := by
  decide

/-- Claim C1, amended: once the tracked order is terminal, a later event
for the same order id is applied like any other — the handler overwrites
the stored status and details snapshot with the event's and reports no
anomaly; only the terminal flag is preserved (it stays set). -/
theorem C1_terminal_event_still_overwrites (s : TrackerState) (e : OrderData)
    (hterm : s.is_order_terminal = true) (hid : e.id = s.tracked_order_id) :
    (handle_tracked_order_update s e).tracked_order_status_from_stream = e.status ∧
    (handle_tracked_order_update s e).tracked_order_details_from_stream = some e ∧
    (handle_tracked_order_update s e).is_order_terminal = true := by
  rw [handle_match s e hid]
  refine ⟨rfl, rfl, ?_⟩
  split_ifs <;> simp [hterm]

/-- Claim C1, witness: the amended statement at the concrete terminal
state `sTerm` and Working event `eWork`. -/
theorem C1_witness :
    (handle_tracked_order_update sTerm eWork).tracked_order_status_from_stream = eWork.status ∧
    (handle_tracked_order_update sTerm eWork).tracked_order_details_from_stream = some eWork ∧
    (handle_tracked_order_update sTerm eWork).is_order_terminal = true :=
  C1_terminal_event_still_overwrites sTerm eWork (by decide) (by decide)

/-- Claim C2: for an event applied to the tracked order (matching id,
order not yet terminal), the event sets the terminal flag exactly when
its status code is Filled, Cancelled or Rejected; any other status code
leaves the flag unset. -/
theorem C2_terminal_flag_iff (s : TrackerState) (e : OrderData)
    (hid : e.id = s.tracked_order_id) (hact : s.is_order_terminal = false) :
    (handle_tracked_order_update s e).is_order_terminal = true ↔
      e.status ∈ [some ORDER_STATUS_FILLED, some ORDER_STATUS_CANCELLED,
        some ORDER_STATUS_REJECTED] := by
  rw [handle_match s e hid]
  split_ifs with hm <;> simp [hm, hact]

/-- Claim C2, witness: a Filled event on the fresh tracked state sets the
terminal flag. -/
theorem C2_witness :
    (handle_tracked_order_update sInit eFill).is_order_terminal = true :=
  (C2_terminal_flag_iff sInit eFill (by decide) (by decide)).mpr (by decide)

/-- Claim C3: applying the same terminal-status event twice in a row is
idempotent — the second application reproduces exactly the state after
the first (status, details snapshot and terminal flag unchanged), and the
handler is total, so no error or anomaly is produced. -/
theorem C3_duplicate_terminal_idempotent (s : TrackerState) (e : OrderData)
    (hid : e.id = s.tracked_order_id)
    (hterm : e.status ∈ [some ORDER_STATUS_FILLED, some ORDER_STATUS_CANCELLED,
      some ORDER_STATUS_REJECTED]) :
    handle_tracked_order_update (handle_tracked_order_update s e) e
      = handle_tracked_order_update s e := by
  have hid2 : e.id = (handle_tracked_order_update s e).tracked_order_id := by
    rw [handle_preserves_id]; exact hid
  rw [handle_match _ e hid2, handle_match s e hid]
  simp [hterm]

/-- Claim C3, witness: re-applying the concrete Filled event `eFill`. -/
theorem C3_witness :
    handle_tracked_order_update (handle_tracked_order_update sInit eFill) eFill
      = handle_tracked_order_update sInit eFill :=
  C3_duplicate_terminal_idempotent sInit eFill (by decide) (by decide)

/-- Claim C4: an event whose order id differs from the tracked order id
changes nothing — the handler returns the state unmodified (so status,
details, terminal flag and tracked id are untouched, and no record is
created), and the handler is total, so no error is raised. -/
theorem C4_nonmatching_id_noop (s : TrackerState) (e : OrderData)
    (hne : e.id ≠ s.tracked_order_id) :
    handle_tracked_order_update s e = s := by
  unfold handle_tracked_order_update
  rw [if_neg hne]

/-- Claim C4, witness: the event for untracked order id 8 is a no-op on
the fresh tracked state. -/
theorem C4_witness : handle_tracked_order_update sInit eOther = sInit :=
  C4_nonmatching_id_noop sInit eOther (by decide)

/-- Claim C5, counterexample: after a valid active-transition event the
observable tracked state is exactly the four stored fields (id, status,
details, terminal flag) — it carries no last-updated timestamp, and
re-applying the same event (which would have to bump such a timestamp at
a later wall-clock time) reproduces the state bit for bit. -/
theorem C5_counterexample :
    handle_tracked_order_update sInit eWork =
      { tracked_order_id := some 7
        tracked_order_status_from_stream := some ORDER_STATUS_WORKING
        tracked_order_details_from_stream := some eWork
        is_order_terminal := false } ∧
    handle_tracked_order_update (handle_tracked_order_update sInit eWork) eWork
      = handle_tracked_order_update sInit eWork := by
  decide

/-- Claim C5, amended: for every event applied to the tracked order while
it is still active, the snapshot reflects the new status and the event's
full payload; the code maintains no last-updated timestamp. -/
theorem C5_snapshot_reflects_event (s : TrackerState) (e : OrderData)
    (hid : e.id = s.tracked_order_id) (_hact : s.is_order_terminal = false) :
    (handle_tracked_order_update s e).tracked_order_status_from_stream = e.status ∧
    (handle_tracked_order_update s e).tracked_order_details_from_stream = some e := by
  rw [handle_match s e hid]
  exact ⟨rfl, rfl⟩

/-- Claim C5, witness: the amended statement at the fresh tracked state
and the Working event. -/
theorem C5_witness :
    (handle_tracked_order_update sInit eWork).tracked_order_status_from_stream
        = eWork.status ∧
    (handle_tracked_order_update sInit eWork).tracked_order_details_from_stream
        = some eWork :=
  C5_snapshot_reflects_event sInit eWork (by decide) (by decide)

/-- Claim C9: the terminal flag is monotone — once set, no event applied
through the handler resets it, and a matching event (even one carrying an
active status such as Working) still overwrites the stored status. -/
theorem C9_terminal_flag_monotone (s : TrackerState) (e : OrderData)
    (hterm : s.is_order_terminal = true) :
    (handle_tracked_order_update s e).is_order_terminal = true ∧
    (e.id = s.tracked_order_id →
      (handle_tracked_order_update s e).tracked_order_status_from_stream = e.status) := by
  refine ⟨handle_flag_mono s e hterm, fun hid => ?_⟩
  rw [handle_match s e hid]

/-- Claim C9, witness: the Working event after a Filled terminal state
leaves the flag set while overwriting the status. -/
theorem C9_witness :
    (handle_tracked_order_update sTerm eWork).is_order_terminal = true ∧
    (eWork.id = sTerm.tracked_order_id →
      (handle_tracked_order_update sTerm eWork).tracked_order_status_from_stream
        = eWork.status) :=
  C9_terminal_flag_monotone sTerm eWork (by decide)

/-- Claim C10: a matching event whose status code is outside the terminal
set (in particular any unrecognized code) is not rejected — the handler
stores it as the current status and details, leaves the terminal flag as
it was (it does not set it), and, being total, raises no error. -/
theorem C10_unknown_status_stored (s : TrackerState) (e : OrderData)
    (hid : e.id = s.tracked_order_id)
    (hnt : e.status ∉ [some ORDER_STATUS_FILLED, some ORDER_STATUS_CANCELLED,
      some ORDER_STATUS_REJECTED]) :
    (handle_tracked_order_update s e).tracked_order_status_from_stream = e.status ∧
    (handle_tracked_order_update s e).tracked_order_details_from_stream = some e ∧
    (handle_tracked_order_update s e).is_order_terminal = s.is_order_terminal := by
  rw [handle_match s e hid]
  refine ⟨rfl, rfl, ?_⟩
  rw [if_neg hnt]

/-- Claim C10, witness: the unknown status code 99 is stored and does not
set the terminal flag. -/
theorem C10_witness :
    (handle_tracked_order_update sInit eUnknown).tracked_order_status_from_stream
        = eUnknown.status ∧
    (handle_tracked_order_update sInit eUnknown).tracked_order_details_from_stream
        = some eUnknown ∧
    (handle_tracked_order_update sInit eUnknown).is_order_terminal
        = sInit.is_order_terminal :=
  C10_unknown_status_stored sInit eUnknown (by decide) (by decide)

/-- If the state reached at the end of the confirmation loop is not
terminal, the loop can only have exited by exhausting its ticks, and the
outcome is the timeout carrying that state's stream status. -/
lemma confirmLoop_timeout (ticks : List (List OrderData)) :
    ∀ s : TrackerState, (confirmLoop s ticks).1.is_order_terminal = false →
      (confirmLoop s ticks).2
        = ConfirmOutcome.timedOut
            (confirmLoop s ticks).1.tracked_order_status_from_stream := by
  induction ticks with
  | nil => intro s _; rfl
  | cons es rest ih =>
    intro s h
    by_cases ht : s.is_order_terminal = true
    · exfalso
      simp [confirmLoop, ht, apply_ite] at h
    · have ht' : s.is_order_terminal = false := by simpa using ht
      simp only [confirmLoop, ht', Bool.false_eq_true, if_false] at h ⊢
      exact ih _ h

/-- While the polling checks see only non-terminal states, the
confirmation loop just folds each tick's events into the state. -/
lemma confirmLoop_append (pre : List (List OrderData)) :
    ∀ (s : TrackerState) (suf : List (List OrderData)),
      (∀ u ∈ checkStates s pre, u.is_order_terminal = false) →
      confirmLoop s (pre ++ suf) = confirmLoop (foldTicks s pre) suf := by
  induction pre with
  | nil => intro s suf _; rfl
  | cons es rest ih =>
    intro s suf hall
    have hs : s.is_order_terminal = false := hall s (by simp [checkStates])
    have hrest : ∀ u ∈ checkStates (applyEvents s es) rest, u.is_order_terminal = false := by
      intro u hu
      exact hall u (by simp [checkStates, hu])
    simp only [List.cons_append, confirmLoop, hs, Bool.false_eq_true, if_false]
    exact ih (applyEvents s es) suf hrest

/-- A confirmation-loop poll that observes a terminal state with a status
other than Cancelled exits at once with that status as the outcome. -/
lemma confirmLoop_terminal_poll (s : TrackerState) (es : List OrderData)
    (rest : List (List OrderData))
    (ht : s.is_order_terminal = true)
    (hc : s.tracked_order_status_from_stream ≠ some ORDER_STATUS_CANCELLED) :
    confirmLoop s (es :: rest)
      = (s, ConfirmOutcome.terminalOther s.tracked_order_status_from_stream) := by
  simp [confirmLoop, ht, hc]

/-- When the monitor loop ends with the order still active and the cancel
request succeeds, the session's report is the lifted outcome of the
confirmation loop started from the state after the cancel-call events. -/
lemma run_cancel_success (s0 : TrackerState) (inp : SessionInput)
    (h : (monitorLoop s0 inp.monitorTicks).is_order_terminal = false)
    (hc : inp.cancelSuccess = true) :
    (run_order_lifecycle_example s0 inp).report
      = liftConfirm (confirmLoop
          (applyEvents (monitorLoop s0 inp.monitorTicks) inp.cancelCallEvents)
          inp.confirmTicks).2 := by
  simp [run_order_lifecycle_example, h, hc]

/-- Claim C6: the session issues a cancel request exactly when the
tracked order has not reached a terminal state by the time the monitor
loop ends (either by observing a terminal state or by exhausting the
configured monitor duration). -/
theorem C6_cancel_iff_not_terminal (s0 : TrackerState) (inp : SessionInput) :
    (run_order_lifecycle_example s0 inp).cancelIssued = true ↔
      (monitorLoop s0 inp.monitorTicks).is_order_terminal = false := by
  by_cases h : (monitorLoop s0 inp.monitorTicks).is_order_terminal = true
  · simp [run_order_lifecycle_example, h]
  · have h' : (monitorLoop s0 inp.monitorTicks).is_order_terminal = false := by
      simpa using h
    simp only [run_order_lifecycle_example, h', Bool.false_eq_true, if_false]
    split_ifs <;> simp

/-- Claim C7, counterexample: the fill event arrives during the final
half-second sleep of the confirmation wait — within the configured
timeout, so the order becomes terminal with status Filled during the
wait — yet the session reports the timeout outcome (whose carried "last
known" status is the terminal Filled), not the terminal-status outcome
the claim requires, because no poll runs after the last sleep. -/
theorem C7_counterexample :
    (run_order_lifecycle_example sInit lateFillInput).report
        = SessionReport.cancelConfirmTimedOut (some ORDER_STATUS_FILLED) ∧
    (run_order_lifecycle_example sInit lateFillInput).finalState.is_order_terminal
        = true := by
  decide

/-- Claim C7, amended: if the cancel request succeeds, then (a) whenever
the polling checks see only non-terminal states until the order becomes
terminal with status Filled or Rejected, and at least one poll follows,
the session reports that actual terminal status, not Cancelled; and (b)
if the wait runs out of polls with the order still non-terminal, the
session reports the timeout outcome carrying the last known stream
status (which is then non-terminal). -/
theorem C7_confirm_wait_reports (s0 : TrackerState)
    (mt pre suf ct : List (List OrderData)) (ce : List OrderData) :
    ((monitorLoop s0 mt).is_order_terminal = false →
     (∀ u ∈ checkStates (applyEvents (monitorLoop s0 mt) ce) pre,
        u.is_order_terminal = false) →
     (foldTicks (applyEvents (monitorLoop s0 mt) ce) pre).is_order_terminal = true →
     ((foldTicks (applyEvents (monitorLoop s0 mt) ce) pre).tracked_order_status_from_stream
          = some ORDER_STATUS_FILLED ∨
      (foldTicks (applyEvents (monitorLoop s0 mt) ce) pre).tracked_order_status_from_stream
          = some ORDER_STATUS_REJECTED) →
     suf ≠ [] →
     (run_order_lifecycle_example s0 ⟨mt, ce, true, pre ++ suf⟩).report
        = SessionReport.terminalDuringCancelWait
            ((foldTicks (applyEvents (monitorLoop s0 mt) ce) pre).tracked_order_status_from_stream))
    ∧
    ((monitorLoop s0 mt).is_order_terminal = false →
     (confirmLoop (applyEvents (monitorLoop s0 mt) ce) ct).1.is_order_terminal = false →
     (run_order_lifecycle_example s0 ⟨mt, ce, true, ct⟩).report
        = SessionReport.cancelConfirmTimedOut
            ((confirmLoop (applyEvents (monitorLoop s0 mt) ce) ct).1.tracked_order_status_from_stream)) := by
  constructor
  · intro hmon hpre hterm hstat hsuf
    obtain ⟨r, rest, rfl⟩ : ∃ r rest, suf = r :: rest := by
      cases suf with
      | nil => exact absurd rfl hsuf
      | cons r rest => exact ⟨r, rest, rfl⟩
    have hrun := run_cancel_success s0 ⟨mt, ce, true, pre ++ r :: rest⟩ hmon rfl
    rw [hrun]
    rw [confirmLoop_append pre _ _ hpre]
    rw [confirmLoop_terminal_poll _ r rest hterm ?_]
    · rfl
    · rcases hstat with hf | hr
      · rw [hf]; simp [ORDER_STATUS_FILLED, ORDER_STATUS_CANCELLED]
      · rw [hr]; simp [ORDER_STATUS_REJECTED, ORDER_STATUS_CANCELLED]
  · intro hmon hfin
    have hrun := run_cancel_success s0 ⟨mt, ce, true, ct⟩ hmon rfl
    rw [hrun]
    rw [confirmLoop_timeout ct _ hfin]
    rfl

/-- Claim C7, witness: with no monitor-window events, a fill arriving in
the first confirmation sleep and one further poll, the amended statement
reports the Filled status. -/
theorem C7_witness :
    (run_order_lifecycle_example sInit ⟨[], [], true, [[eFill]] ++ [[]]⟩).report
      = SessionReport.terminalDuringCancelWait (some ORDER_STATUS_FILLED) :=
  (C7_confirm_wait_reports sInit [] [[eFill]] [[]] [] []).1
    (by decide) (by decide) (by decide) (Or.inl (by decide)) (by decide)

/-- Claim C8: if the monitor loop ends with the order still active, the
cancel request fails at the transport level, but the order has been
observed terminal by the time of the post-failure check (events that
arrived during the cancel call), the session completes without raising
and reports the observed terminal status. -/
theorem C8_cancel_failure_nonfatal (s0 : TrackerState)
    (mt ct : List (List OrderData)) (ce : List OrderData)
    (h1 : (monitorLoop s0 mt).is_order_terminal = false)
    (h2 : (applyEvents (monitorLoop s0 mt) ce).is_order_terminal = true) :
    (run_order_lifecycle_example s0 ⟨mt, ce, false, ct⟩).report
      = SessionReport.cancelFailedButTerminal
          ((applyEvents (monitorLoop s0 mt) ce).tracked_order_status_from_stream) := by
  simp [run_order_lifecycle_example, h1, h2]

/-- Claim C8, witness: the fill arrives while the failing cancel call is
in flight; the session reports Filled. -/
theorem C8_witness :
    (run_order_lifecycle_example sInit ⟨[], [eFill], false, []⟩).report
      = SessionReport.cancelFailedButTerminal (some ORDER_STATUS_FILLED) :=
  C8_cancel_failure_nonfatal sInit [] [] [eFill] (by decide) (by decide)

end OrderLifecycle
